import Mathlib

/-!
Shallow embedding of the TermiGPT / AskIt terminal chat client
(src/ui.js, src/ui.jsx) and proofs about its request-dispatch and
chat-session behaviour.

The repository contains two near-duplicate CLI variants; the claims cite
the `askit` variant in src/ui.js (lines 93-335) as the authority for the
dispatcher (`queryGemini`), prompt construction (`buildSystemPrompt`,
`loadPersonalities`) and the interactive loop (`chatMode`).  The ui.jsx
variant differs only in theming and in a simpler dispatcher.

External collaborators (the HTTP transport `fetch` and `JSON.parse`) are
modelled as function parameters (`fetchF`, `parseF`): the code under
verification is exactly the branching logic of the source, and theorems
quantify over every possible behaviour of those collaborators.
-/

namespace TermiGPT

/-- Substring test on character lists: true iff `pat` occurs contiguously
inside the second list.  Mirrors JavaScript `String.prototype.includes`. -/
def containsSeq (pat : List Char) : List Char → Bool
  | [] => pat.isEmpty
  | c :: cs => pat.isPrefixOf (c :: cs) || containsSeq pat cs

/-- JavaScript `s.includes(pat)`. -/
def strIncludes (s pat : String) : Bool :=
  containsSeq pat.toList s.toList

/-- JavaScript `s.toLowerCase()` over the code points (the model names in
play are ASCII, where `Char.toLower` agrees with JavaScript). -/
def strToLower (s : String) : String :=
  String.mk (s.data.map Char.toLower)

/-- JavaScript `s.trim()`: strip leading and trailing whitespace. -/
def strTrim (s : String) : String :=
  String.mk (((s.data.dropWhile Char.isWhitespace).reverse.dropWhile
    Char.isWhitespace).reverse)

/-- Model constant from src/ui.js line 115: the current stable, free-tier
model used as the 404 fallback target. -/
def STABLE_FALLBACK_MODEL : String := "gemini-2.5-flash"

/-- Model constant from src/ui.js line 114. -/
def DEFAULT_MODEL : String := "gemini-2.5-flash"

/-- Endpoint template from src/ui.js line 198: the model name is the only
varying path segment of the outbound request URL. -/
def endpointURL (model apiKey : String) : String :=
  "https://generativelanguage.googleapis.com/v1beta/models/" ++ model ++
    ":generateContent?key=" ++ apiKey

/-- Model-name correction from src/ui.js lines 200-208: if the lower-cased
requested name is not the stable fallback name and contains "pro" but not
"2.5", rewrite it to the hardcoded newer "pro" variant. -/
def rewriteModel (model : String) : String :=
  if strToLower model != STABLE_FALLBACK_MODEL then
    if strIncludes (strToLower model) "pro" && !(strIncludes (strToLower model) "2.5") then
      "gemini-2.5-pro"
    else model
  else model

/-- Structured data (JSON) values, as far as the extraction path needs
them.  Numbers are modelled as integers; no claim depends on numeric
values. -/
inductive Json where
  | null
  | bool (b : Bool)
  | num (n : Int)
  | str (s : String)
  | arr (elems : List Json)
  | obj (members : List (String × Json))

/-- First-match lookup among object members. -/
def lookupMem : List (String × Json) → String → Option Json
  | [], _ => none
  | (k, v) :: rest, key => if k == key then some v else lookupMem rest key

/-- JavaScript optional property access `x?.field`: `none` models
`undefined` (missing key, or access on a non-object). -/
def Json.getField : Json → String → Option Json
  | .obj ms, key => lookupMem ms key
  | _, _ => none

/-- JavaScript optional index access `x?.[i]` on an array value. -/
def Json.atIdx : Json → Nat → Option Json
  | .arr xs, i => xs.get? i
  | _, _ => none

/-- The fixed extraction path of src/ui.js line 238:
`data?.candidates?.[0]?.content?.parts?.[0]?.text`. -/
def extractText (data : Json) : Option Json :=
  ((((data.getField "candidates").bind (fun c => c.atIdx 0)).bind
      (fun c => c.getField "content")).bind
      (fun c => c.getField "parts")).bind
      (fun p => p.atIdx 0) |>.bind (fun p => p.getField "text")

/-- JavaScript truthiness of a JSON value, as used by `text || fallback`
on src/ui.js line 239. -/
def jsTruthy : Json → Bool
  | .null => false
  | .bool b => b
  | .num n => n != 0
  | .str s => s != ""
  | .arr _ => true
  | .obj _ => true

/-- Placeholder returned when the extraction path yields no truthy text
(src/ui.js line 239). -/
def placeholderText : String :=
  "(No text response from Gemini. The API may have returned a blocked or empty response.)"

/-- An HTTP response as observed by the dispatcher: status code, status
text and body text. -/
structure FetchResponse where
  status : Nat
  statusText : String
  body : String

/-- The `res.ok` predicate of the fetch API: status in the range 200-299. -/
def FetchResponse.ok (r : FetchResponse) : Bool :=
  decide (200 ≤ r.status) && decide (r.status ≤ 299)

/-- Errors thrown by the dispatcher.

`remote` models `throw new Error("Gemini API error: ...")` on src/ui.js
line 233, carrying status, status text and body.

`notAConstructorTypeError` models the catch block on src/ui.js line 241,
which reads `throw new new Error(...)`: JavaScript first constructs the
`Error` whose message would carry `responseText.substring(0, 100)`, then
applies `new` to that Error *instance*, which raises
`TypeError: ... is not a constructor` — so the exception that actually
propagates carries no part of the body text, and the constructed Error is
discarded. -/
inductive JsError where
  | remote (status : Nat) (statusText : String) (body : String)
  | notAConstructorTypeError

/-- The dispatcher of src/ui.js lines 197-243, with the self-recursive
404 fallback bounded by an explicit fuel parameter.  `none` is returned
only if the self-recursion would exceed the given fuel; the entry point
`queryGemini` supplies fuel 2 and the totality theorems below prove the
fuel is never exhausted, i.e. the recursion depth is at most one.

The returned list is the trace of endpoint URLs passed to the transport,
in order — one entry per HTTP attempt. -/
def queryGeminiFuel (fetchF : String → String → FetchResponse)
    (parseF : String → Option Json) :
    Nat → String → String → String → Option (Except JsError Json × List String)
  | 0, _, _, _ => none
  | fuel + 1, model, prompt, apiKey =>
    let currentModel := rewriteModel model
    let endpoint := endpointURL currentModel apiKey
    let res := fetchF endpoint prompt
    let responseText := res.body
    if !res.ok then
      if res.status == 404 && currentModel != STABLE_FALLBACK_MODEL then
        match queryGeminiFuel fetchF parseF fuel STABLE_FALLBACK_MODEL prompt apiKey with
        | some (r, tr) => some (r, endpoint :: tr)
        | none => none
      else
        some (Except.error (JsError.remote res.status res.statusText responseText), [endpoint])
    else
      match parseF responseText with
      | some data =>
        some (Except.ok
          (match extractText data with
            | some t => if jsTruthy t then t else Json.str placeholderText
            | none => Json.str placeholderText), [endpoint])
      | none =>
        some (Except.error JsError.notAConstructorTypeError, [endpoint])

/-- Entry point: `queryGemini(model, prompt, apiKey)` of src/ui.js. -/
def queryGemini (fetchF : String → String → FetchResponse)
    (parseF : String → Option Json) (model prompt apiKey : String) :
    Option (Except JsError Json × List String) :=
  queryGeminiFuel fetchF parseF 2 model prompt apiKey

/-- The outcome of a single request round with no retry, used to state
that a dispatch on the stable fallback model performs exactly one attempt
and to relate a retried dispatch to the retry's own result. -/
def attemptOnce (fetchF : String → String → FetchResponse)
    (parseF : String → Option Json) (currentModel prompt apiKey : String) :
    Except JsError Json :=
  let res := fetchF (endpointURL currentModel apiKey) prompt
  if !res.ok then
    Except.error (JsError.remote res.status res.statusText res.body)
  else
    match parseF res.body with
    | some data =>
      Except.ok
        (match extractText data with
          | some t => if jsTruthy t then t else Json.str placeholderText
          | none => Json.str placeholderText)
    | none => Except.error JsError.notAConstructorTypeError

/-- Built-in persona templates from src/ui.js lines 117-123, as an
association list of the object's own properties.  Property reads on the
object go through `jsRead` below, which also models the inherited
`Object.prototype` members that a plain-object lookup can reach. -/
def DEFAULT_PERSONALITIES : List (String × String) :=
  [("default", "You are a helpful, concise assistant. Prefer short, actionable answers with examples when relevant."),
   ("sarcastic", "You\x27re a witty, sarcastic assistant. Roast gently but always provide correct, practical help."),
   ("motivational", "You\x27re a high-energy coach. Be supportive, positive, and give step-by-step guidance."),
   ("hacker", "You\x27re a cool, terse, command-line-loving hacker mentor. Prefer shell snippets and minimal prose."),
   ("teacher", "You\x27re a patient teacher. Explain concepts like to a beginner, with analogies and checks for understanding.")]

/-- Own-property lookup on an object, first match: `none` means the key
is not an own property.  This is only the own-key component of a
JavaScript property read; the full read is `jsRead` below. -/
def jsIndex : List (String × String) → String → Option String
  | [], _ => none
  | (k, v) :: rest, key => if k == key then some v else jsIndex rest key

/-- The members a plain object inherits from `Object.prototype`, keyed by
property name; the second component is the function name used when the
value is rendered into a template literal
(`Object.prototype.constructor` is the function `Object`). -/
def OBJECT_PROTOTYPE_METHODS : List (String × String) :=
  [("constructor", "Object"), ("hasOwnProperty", "hasOwnProperty"),
   ("isPrototypeOf", "isPrototypeOf"), ("propertyIsEnumerable", "propertyIsEnumerable"),
   ("toLocaleString", "toLocaleString"), ("toString", "toString"),
   ("valueOf", "valueOf"), ("__defineGetter__", "__defineGetter__"),
   ("__defineSetter__", "__defineSetter__"), ("__lookupGetter__", "__lookupGetter__"),
   ("__lookupSetter__", "__lookupSetter__")]

/-- The value a JavaScript property read can produce on the persona
objects: an own string property, an inherited `Object.prototype`
function, the `__proto__` accessor's result (the `Object.prototype`
object itself), or `undefined`. -/
inductive JsValue where
  | undef
  | str (s : String)
  | protoFn (fname : String)
  | protoObj

/-- JavaScript property read `o[key]` on a plain object with string own
properties: own keys shadow the prototype; a miss on the own keys falls
through to the inherited `Object.prototype` members; only a miss on both
yields `undefined`. -/
def jsRead (o : List (String × String)) (key : String) : JsValue :=
  match jsIndex o key with
  | some v => JsValue.str v
  | none =>
    if key == "__proto__" then JsValue.protoObj
    else
      match jsIndex OBJECT_PROTOTYPE_METHODS key with
      | some fname => JsValue.protoFn fname
      | none => JsValue.undef

/-- JavaScript truthiness of such a value: `undefined` and the empty
string are falsy; functions and objects are always truthy. -/
def jsValTruthy : JsValue → Bool
  | .undef => false
  | .str s => s != ""
  | .protoFn _ => true
  | .protoObj => true

/-- JavaScript `a || b`: `a` if truthy, else `b`. -/
def jsValOr (a b : JsValue) : JsValue :=
  if jsValTruthy a then a else b

/-- Template-literal rendering of such a value (function and object
rendering as in V8/Node; the development only relies on these renderings
being distinct from the persona instruction texts). -/
def jsValToStr : JsValue → String
  | .undef => "undefined"
  | .str s => s
  | .protoFn fname => "function " ++ fname ++ "() \x7b [native code] \x7d"
  | .protoObj => "[object Object]"

/-- The fixed rules text appended by `buildSystemPrompt`
(src/ui.js line 148). -/
def additionalRules : String :=
  "\nAdditional rules:\n- Use bullet points when helpful.\n- Provide runnable examples when code is requested.\n- Keep answers short unless --long is used."

/-- Prompt construction of src/ui.js lines 146-149:
`personalities[style] || personalities["default"]` followed by the rules
text.  Both reads are full JavaScript property reads (`jsRead`), so an
identifier naming an inherited `Object.prototype` member resolves to
that truthy inherited value and bypasses the `||` fallback. -/
def buildSystemPrompt (style : String) (personalities : List (String × String)) : String :=
  jsValToStr (jsValOr (jsRead personalities style) (jsRead personalities "default")) ++ additionalRules

/-- JavaScript object spread `{ ...base, ...extra }` with extra winning on
shared keys, modelled so that first-match lookup agrees with the spread
result. -/
def spreadMerge (base extra : List (String × String)) : List (String × String) :=
  base.filter (fun p => !(extra.any (fun q => q.1 == p.1))) ++ extra

/-- Persona loading of src/ui.js lines 151-159.  The contents of the
user override file `~/.askit_personalities.json` (an external
collaborator) are passed in as `extra`; a missing or malformed file is
the case `extra = []`. -/
def loadPersonalities (extra : List (String × String)) : List (String × String) :=
  spreadMerge DEFAULT_PERSONALITIES extra

/-- Observable effect of one line of input in the interactive loop of
src/ui.js lines 284-303.  Exactly the `dispatched` effect performs a
network call (one Dispatcher invocation with the given prompt). -/
inductive ChatEffect where
  | reprompt
  | closed
  | cleared
  | dispatched (prompt : String)

/-- One step of the interactive loop (the `rl.on("line", ...)` handler of
src/ui.js lines 284-303): returns the Conversation Context after the line
together with the effect.  Note the source never assigns `context` in the
dispatch branch — `fullPrompt` is local — so the context is returned
unchanged there, exactly as in the code. -/
def chatStep (style : String) (long : Bool) (ps : List (String × String))
    (ctx : String) (line : String) : String × ChatEffect :=
  let text := strTrim line
  if text == "" then (ctx, ChatEffect.reprompt)
  else if text == ":exit" then (ctx, ChatEffect.closed)
  else if text == ":clear" then (buildSystemPrompt style ps, ChatEffect.cleared)
  else
    (ctx, ChatEffect.dispatched
      (ctx ++ "\nUser: " ++ text ++ (if long then "\nBe detailed and thorough." else "")))

/-- Running the interactive loop over a list of input lines, starting
from a given Conversation Context: final context plus the effects in
order.  The session starts with `buildSystemPrompt style ps`
(src/ui.js line 281). -/
def chatRun (style : String) (long : Bool) (ps : List (String × String)) :
    String → List String → String × List ChatEffect
  | ctx, [] => (ctx, [])
  | ctx, line :: rest =>
    let step := chatStep style long ps ctx line
    let tail := chatRun style long ps step.1 rest
    (tail.1, step.2 :: tail.2)

/-- A message of the full-screen UI's message list (src/ui.js line 37). -/
structure ChatMsg where
  role : String
  text : String

/-- Transcript rendering of src/ui.js line 50:
`messages.map(m => role + ": " + text).join("\n\n")`. -/
def renderTranscript (messages : List ChatMsg) : String :=
  String.intercalate "\n\n" (messages.map (fun m => m.role ++ ": " ++ m.text))

/-- File name chosen by `saveLog` (src/ui.js line 49), parameterised by
the millisecond timestamp `Date.now()`. -/
def logFileName (now : Nat) : String :=
  "ui_chat_" ++ toString now ++ ".txt"

/-- A flat file-system model: `fs.writeFileSync` replaces the full
content at a path; reads take the most recent write. -/
def fsWrite (path content : String) (files : List (String × String)) :
    List (String × String) :=
  (path, content) :: files

/-- The pure content of one `saveLog` invocation (src/ui.js lines 47-52):
exactly one write, of the full rendered transcript, to the timestamped
file. -/
def saveLogModel (messages : List ChatMsg) (now : Nat)
    (files : List (String × String)) : List (String × String) :=
  fsWrite (logFileName now) (renderTranscript messages) files

/-- Transport stub used by witnesses: every request succeeds with an
unparseable body. -/
def fetchStub : String → String → FetchResponse :=
  fun _ _ => ⟨200, "OK", "stub-body"⟩

/-- Transport stub used by witnesses: every request is answered 404. -/
def fetch404 : String → String → FetchResponse :=
  fun _ _ => ⟨404, "Not Found", "model not found"⟩

/-- Transport stub used by witnesses: every request succeeds with the
body "okbody". -/
def fetchOk : String → String → FetchResponse :=
  fun _ _ => ⟨200, "OK", "okbody"⟩

/-- Parse stub: JSON.parse throws on every body. -/
def parseFail : String → Option Json :=
  fun _ => none

/-- Parse stub: every body parses to the empty object, in which the
whole extraction path is missing. -/
def parseEmptyObj : String → Option Json :=
  fun _ => some (Json.obj [])

/-- A well-formed response document whose full extraction path is
present with non-empty text. -/
def docWithText : Json :=
  Json.obj [("candidates", Json.arr
    [Json.obj [("content", Json.obj
      [("parts", Json.arr [Json.obj [("text", Json.str "hi there")]])])]])]

/-- Parse stub: every body parses to `docWithText`. -/
def parseFullDoc : String → Option Json :=
  fun _ => some docWithText

end TermiGPT

namespace TermiGPT

/-! Helper lemmas about the dispatcher. -/

theorem stable_attempt (fetchF : String → String → FetchResponse)
    (parseF : String → Option Json) (fuel : Nat) (prompt apiKey : String) :
    queryGeminiFuel fetchF parseF (fuel + 1) STABLE_FALLBACK_MODEL prompt apiKey =
      some (attemptOnce fetchF parseF STABLE_FALLBACK_MODEL prompt apiKey,
            [endpointURL STABLE_FALLBACK_MODEL apiKey]) := by
  have hrw : rewriteModel STABLE_FALLBACK_MODEL = STABLE_FALLBACK_MODEL := by decide
  simp only [queryGeminiFuel, attemptOnce, hrw, bne_self_eq_false, Bool.and_false,
    Bool.false_eq_true, if_false]
  split
  · rfl
  · split <;> rfl

theorem stable_one (fetchF : String → String → FetchResponse)
    (parseF : String → Option Json) (prompt apiKey : String) :
    queryGeminiFuel fetchF parseF 1 STABLE_FALLBACK_MODEL prompt apiKey =
      some (attemptOnce fetchF parseF STABLE_FALLBACK_MODEL prompt apiKey,
            [endpointURL STABLE_FALLBACK_MODEL apiKey]) :=
  stable_attempt fetchF parseF 0 prompt apiKey

theorem queryGeminiFuel_succ (fetchF : String → String → FetchResponse)
    (parseF : String → Option Json) (fuel : Nat) (model prompt apiKey : String) :
    queryGeminiFuel fetchF parseF (fuel + 1) model prompt apiKey =
      (if !(fetchF (endpointURL (rewriteModel model) apiKey) prompt).ok then
        if (fetchF (endpointURL (rewriteModel model) apiKey) prompt).status == 404 &&
            rewriteModel model != STABLE_FALLBACK_MODEL then
          match queryGeminiFuel fetchF parseF fuel STABLE_FALLBACK_MODEL prompt apiKey with
          | some (r, tr) => some (r, endpointURL (rewriteModel model) apiKey :: tr)
          | none => none
        else
          some (Except.error (JsError.remote
                  (fetchF (endpointURL (rewriteModel model) apiKey) prompt).status
                  (fetchF (endpointURL (rewriteModel model) apiKey) prompt).statusText
                  (fetchF (endpointURL (rewriteModel model) apiKey) prompt).body),
                [endpointURL (rewriteModel model) apiKey])
      else
        match parseF (fetchF (endpointURL (rewriteModel model) apiKey) prompt).body with
        | some data => some (Except.ok (match extractText data with
            | some t => if jsTruthy t then t else Json.str placeholderText
            | none => Json.str placeholderText), [endpointURL (rewriteModel model) apiKey])
        | none => some (Except.error JsError.notAConstructorTypeError,
            [endpointURL (rewriteModel model) apiKey])) := rfl

theorem retry_on_404 (fetchF : String → String → FetchResponse)
    (parseF : String → Option Json) (model prompt apiKey : String)
    (hne : rewriteModel model ≠ STABLE_FALLBACK_MODEL)
    (h404 : (fetchF (endpointURL (rewriteModel model) apiKey) prompt).status = 404) :
    queryGemini fetchF parseF model prompt apiKey =
      some (attemptOnce fetchF parseF STABLE_FALLBACK_MODEL prompt apiKey,
            [endpointURL (rewriteModel model) apiKey,
             endpointURL STABLE_FALLBACK_MODEL apiKey]) := by
  have hok : (fetchF (endpointURL (rewriteModel model) apiKey) prompt).ok = false := by
    simp only [FetchResponse.ok, h404]
    decide
  have hne' : (rewriteModel model != STABLE_FALLBACK_MODEL) = true := bne_iff_ne.mpr hne
  show queryGeminiFuel fetchF parseF (1 + 1) model prompt apiKey = _
  rw [queryGeminiFuel_succ, stable_one]
  simp only [hok, h404, hne', Bool.not_false, beq_self_eq_true, Bool.true_and, if_true,
    eq_self_iff_true, ite_true]

theorem error_no_retry (fetchF : String → String → FetchResponse)
    (parseF : String → Option Json) (model prompt apiKey : String)
    (hok : (fetchF (endpointURL (rewriteModel model) apiKey) prompt).ok = false)
    (h404 : (fetchF (endpointURL (rewriteModel model) apiKey) prompt).status ≠ 404) :
    queryGemini fetchF parseF model prompt apiKey =
      some (Except.error (JsError.remote
              (fetchF (endpointURL (rewriteModel model) apiKey) prompt).status
              (fetchF (endpointURL (rewriteModel model) apiKey) prompt).statusText
              (fetchF (endpointURL (rewriteModel model) apiKey) prompt).body),
            [endpointURL (rewriteModel model) apiKey]) := by
  have h404' : ((fetchF (endpointURL (rewriteModel model) apiKey) prompt).status == 404) = false := by
    simpa using h404
  show queryGeminiFuel fetchF parseF (1 + 1) model prompt apiKey = _
  rw [queryGeminiFuel_succ]
  simp only [hok, h404', Bool.not_false, if_true, Bool.false_and, Bool.false_eq_true,
    if_false, eq_self_iff_true, ite_true]

theorem success_extract (fetchF : String → String → FetchResponse)
    (parseF : String → Option Json) (model prompt apiKey : String) (data : Json)
    (hok : (fetchF (endpointURL (rewriteModel model) apiKey) prompt).ok = true)
    (hparse : parseF (fetchF (endpointURL (rewriteModel model) apiKey) prompt).body = some data) :
    queryGemini fetchF parseF model prompt apiKey =
      some (Except.ok
        (match extractText data with
          | some t => if jsTruthy t then t else Json.str placeholderText
          | none => Json.str placeholderText),
        [endpointURL (rewriteModel model) apiKey]) := by
  show queryGeminiFuel fetchF parseF (1 + 1) model prompt apiKey = _
  rw [queryGeminiFuel_succ]
  simp only [hok, hparse, Bool.not_true, Bool.false_eq_true, if_false]

theorem attemptOnce_error (fetchF : String → String → FetchResponse)
    (parseF : String → Option Json) (m prompt apiKey : String)
    (hok : (fetchF (endpointURL m apiKey) prompt).ok = false) :
    attemptOnce fetchF parseF m prompt apiKey =
      Except.error (JsError.remote
        (fetchF (endpointURL m apiKey) prompt).status
        (fetchF (endpointURL m apiKey) prompt).statusText
        (fetchF (endpointURL m apiKey) prompt).body) := by
  simp only [attemptOnce, hok, Bool.not_false, if_true, eq_self_iff_true, ite_true]

theorem queryGemini_shape (fetchF : String → String → FetchResponse)
    (parseF : String → Option Json) (model prompt apiKey : String) :
    ∃ r rest, queryGemini fetchF parseF model prompt apiKey =
      some (r, endpointURL (rewriteModel model) apiKey :: rest) ∧ rest.length ≤ 1 := by
  show ∃ r rest, queryGeminiFuel fetchF parseF (1 + 1) model prompt apiKey =
    some (r, endpointURL (rewriteModel model) apiKey :: rest) ∧ rest.length ≤ 1
  rw [queryGeminiFuel_succ, stable_one]
  split
  · split
    · exact ⟨_, [endpointURL STABLE_FALLBACK_MODEL apiKey], rfl, by simp⟩
    · exact ⟨_, [], rfl, by simp⟩
  · split
    · exact ⟨_, [], rfl, by simp⟩
    · exact ⟨_, [], rfl, by simp⟩

/-! Helper lemmas about the model-name rewrite. -/

theorem rewriteModel_pro (model : String)
    (h1 : strToLower model ≠ STABLE_FALLBACK_MODEL)
    (h2 : strIncludes (strToLower model) "pro" = true)
    (h3 : strIncludes (strToLower model) "2.5" = false) :
    rewriteModel model = "gemini-2.5-pro" := by
  have h1' : (strToLower model != STABLE_FALLBACK_MODEL) = true := bne_iff_ne.mpr h1
  simp only [rewriteModel, h1', h2, h3, Bool.not_false, Bool.and_self, Bool.and_true,
    Bool.true_and, if_true, eq_self_iff_true, ite_true]

theorem rewriteModel_keep (model : String)
    (h : ¬(strToLower model ≠ STABLE_FALLBACK_MODEL ∧
      strIncludes (strToLower model) "pro" = true ∧
      strIncludes (strToLower model) "2.5" = false)) :
    rewriteModel model = model := by
  by_cases hA : strToLower model = STABLE_FALLBACK_MODEL
  · simp only [rewriteModel, hA, bne_self_eq_false, Bool.false_eq_true, if_false]
  · have h1' : (strToLower model != STABLE_FALLBACK_MODEL) = true := bne_iff_ne.mpr hA
    cases hB : strIncludes (strToLower model) "pro" with
    | false =>
      simp only [rewriteModel, h1', hB, Bool.false_and, Bool.false_eq_true, if_false,
        eq_self_iff_true, ite_true]
    | true =>
      cases hC : strIncludes (strToLower model) "2.5" with
      | false => exact absurd ⟨hA, hB, hC⟩ h
      | true =>
        simp only [rewriteModel, h1', hB, hC, Bool.not_true, Bool.and_false,
          Bool.false_eq_true, if_false, eq_self_iff_true, ite_true]

theorem rewriteModel_lower_stable (model : String)
    (hlow : strToLower model = STABLE_FALLBACK_MODEL) :
    rewriteModel model = model := by
  simp only [rewriteModel, hlow, bne_self_eq_false, Bool.false_eq_true, if_false]

/-! Helper lemmas about the merged persona mapping. -/

theorem jsIndex_append (a b : List (String × String)) (key : String) :
    jsIndex (a ++ b) key =
      match jsIndex a key with
      | some v => some v
      | none => jsIndex b key := by
  induction a with
  | nil => simp [jsIndex]
  | cons hd tl ih =>
    obtain ⟨k, v⟩ := hd
    by_cases h : (k == key) = true
    · simp [jsIndex, h]
    · simp only [Bool.not_eq_true] at h
      simp [jsIndex, h, ih]

theorem jsIndex_isSome_of_any (l : List (String × String)) (key : String)
    (h : l.any (fun q => q.1 == key) = true) :
    (jsIndex l key).isSome = true := by
  induction l with
  | nil => simp at h
  | cons hd tl ih =>
    obtain ⟨k, v⟩ := hd
    by_cases hk : (k == key) = true
    · simp [jsIndex, hk]
    · simp only [Bool.not_eq_true] at hk
      simp only [List.any_cons, hk, Bool.false_or] at h
      simp [jsIndex, hk, ih h]

theorem jsIndex_filter_untouched (extra base : List (String × String)) (key : String)
    (h : extra.any (fun q => q.1 == key) = false) :
    jsIndex (base.filter (fun p => !(extra.any (fun q => q.1 == p.1)))) key =
      jsIndex base key := by
  induction base with
  | nil => simp
  | cons hd tl ih =>
    obtain ⟨k, v⟩ := hd
    by_cases hk : (k == key) = true
    · have hkey : k = key := eq_of_beq hk
      subst hkey
      simp [List.filter_cons, h, jsIndex, hk]
    · simp only [Bool.not_eq_true] at hk
      by_cases hp : (extra.any (fun q => q.1 == k)) = true
      · simp [List.filter_cons, hp, ih, jsIndex, hk]
      · simp only [Bool.not_eq_true] at hp
        simp [List.filter_cons, hp, jsIndex, hk, ih]

theorem jsIndex_filter_dropped (extra base : List (String × String)) (key : String)
    (h : extra.any (fun q => q.1 == key) = true) :
    jsIndex (base.filter (fun p => !(extra.any (fun q => q.1 == p.1)))) key = none := by
  induction base with
  | nil => simp [jsIndex]
  | cons hd tl ih =>
    obtain ⟨k, v⟩ := hd
    by_cases hk : (k == key) = true
    · have hkey : k = key := eq_of_beq hk
      subst hkey
      simp [List.filter_cons, h, ih]
    · simp only [Bool.not_eq_true] at hk
      by_cases hp : (extra.any (fun q => q.1 == k)) = true
      · simp [List.filter_cons, hp, ih]
      · simp only [Bool.not_eq_true] at hp
        simp [List.filter_cons, hp, jsIndex, hk, ih]

theorem jsIndex_spreadMerge (base extra : List (String × String)) (key : String) :
    jsIndex (spreadMerge base extra) key =
      match jsIndex extra key with
      | some v => some v
      | none => jsIndex base key := by
  cases hAny : extra.any (fun q => q.1 == key) with
  | true =>
    rw [spreadMerge, jsIndex_append, jsIndex_filter_dropped extra base key hAny]
    obtain ⟨v, hv⟩ := Option.isSome_iff_exists.mp (jsIndex_isSome_of_any extra key hAny)
    rw [hv]
  | false =>
    rw [spreadMerge, jsIndex_append, jsIndex_filter_untouched extra base key hAny]
    have hnone : jsIndex extra key = none := by
      cases hjs : jsIndex extra key with
      | none => rfl
      | some v =>
        exfalso
        have : (jsIndex extra key).isSome = true := by simp [hjs]
        revert this
        induction extra with
        | nil => simp [jsIndex]
        | cons hd tl ih =>
          intro hs
          obtain ⟨k, w⟩ := hd
          by_cases hk : (k == key) = true
          · simp [List.any_cons, hk] at hAny
          · simp only [Bool.not_eq_true] at hk
            simp only [List.any_cons, hk, Bool.false_or] at hAny
            simp only [jsIndex, hk, Bool.false_eq_true, if_false] at hs hjs
            exact ih hAny hjs hs
    rw [hnone]
    cases hb : jsIndex base key <;> rfl

theorem default_present (extra : List (String × String)) :
    (jsIndex (loadPersonalities extra) "default").isSome = true := by
  rw [loadPersonalities, jsIndex_spreadMerge]
  cases he : jsIndex extra "default" with
  | some v => simp
  | none => simp [jsIndex, DEFAULT_PERSONALITIES]

/-! Helper lemma about the interactive loop. -/

theorem chatRun_clear_append (style : String) (long : Bool)
    (ps : List (String × String)) (ctx : String) (xs : List String) :
    chatRun style long ps ctx (xs ++ [":clear"]) =
      (buildSystemPrompt style ps,
       (chatRun style long ps ctx xs).2 ++ [ChatEffect.cleared]) := by
  induction xs generalizing ctx with
  | nil => rfl
  | cons l ls ih =>
    simp only [List.cons_append, chatRun, List.append_eq]
    rw [ih]

/-! Claim theorems. -/

set_option maxRecDepth 40000

/-- Claim C1 (code bug): the spec says every non-empty, non-command input
line is appended as a user turn to the Conversation Context, so the
prompt of the second dispatch contains both turns in order.  The code
never assigns `context` after a dispatch (src/ui.js lines 294-303 build
the local `fullPrompt` only), so the second dispatch's prompt holds only
the persona prompt and the second turn: running the session-start context
through the turns "alpha" then "beta" dispatches a second prompt that
does not contain the first turn "alpha" at all, while each prompt does
contain its own turn. -/
theorem claim_C1_context_never_accumulates :
    (chatRun "default" false DEFAULT_PERSONALITIES
        (buildSystemPrompt "default" DEFAULT_PERSONALITIES) ["alpha", "beta"]).2 =
      [ChatEffect.dispatched
        (buildSystemPrompt "default" DEFAULT_PERSONALITIES ++ "\nUser: alpha"),
       ChatEffect.dispatched
        (buildSystemPrompt "default" DEFAULT_PERSONALITIES ++ "\nUser: beta")] ∧
    strIncludes
      (buildSystemPrompt "default" DEFAULT_PERSONALITIES ++ "\nUser: beta") "alpha" = false ∧
    strIncludes
      (buildSystemPrompt "default" DEFAULT_PERSONALITIES ++ "\nUser: alpha") "alpha" = true :=
  ⟨rfl, by decide, by decide⟩

/-- Claim C2: for a requested model name whose lower-cased form differs
from the stable fallback name and contains "pro" but not "2.5", the model
segment of the first outbound request URL is the hardcoded
"gemini-2.5-pro"; for every other name the first attempt uses the
requested name unchanged.  The trace component of `queryGemini` lists the
endpoint URLs passed to the transport, in order. -/
theorem claim_C2_pro_rewrite (fetchF : String → String → FetchResponse)
    (parseF : String → Option Json) (model prompt apiKey : String) :
    ((strToLower model ≠ STABLE_FALLBACK_MODEL ∧
      strIncludes (strToLower model) "pro" = true ∧
      strIncludes (strToLower model) "2.5" = false) →
      rewriteModel model = "gemini-2.5-pro" ∧
      ∃ r rest, queryGemini fetchF parseF model prompt apiKey =
        some (r, endpointURL "gemini-2.5-pro" apiKey :: rest)) ∧
    (¬(strToLower model ≠ STABLE_FALLBACK_MODEL ∧
      strIncludes (strToLower model) "pro" = true ∧
      strIncludes (strToLower model) "2.5" = false) →
      rewriteModel model = model ∧
      ∃ r rest, queryGemini fetchF parseF model prompt apiKey =
        some (r, endpointURL model apiKey :: rest)) := by
  constructor
  · rintro ⟨h1, h2, h3⟩
    have hrw := rewriteModel_pro model h1 h2 h3
    obtain ⟨r, rest, h, _⟩ := queryGemini_shape fetchF parseF model prompt apiKey
    rw [hrw] at h
    exact ⟨hrw, r, rest, h⟩
  · intro h
    have hrw := rewriteModel_keep model h
    obtain ⟨r, rest, hq, _⟩ := queryGemini_shape fetchF parseF model prompt apiKey
    rw [hrw] at hq
    exact ⟨hrw, r, rest, hq⟩

/-- Witness for C2 at the spec's own example "gemini-pro": the first
attempt goes to the "gemini-2.5-pro" endpoint. -/
theorem claim_C2_pro_rewrite_witness :
    rewriteModel "gemini-pro" = "gemini-2.5-pro" ∧
    ∃ r rest, queryGemini fetchStub parseFail "gemini-pro" "hi" "k" =
      some (r, endpointURL "gemini-2.5-pro" "k" :: rest) :=
  (claim_C2_pro_rewrite fetchStub parseFail "gemini-pro" "hi" "k").1
    ⟨by decide, by decide, by decide⟩

/-- Claim C3: a dispatch whose (possibly rewritten) model name differs
from the stable fallback name and whose response status is exactly 404
issues exactly one retry, against the stable fallback model, and returns
that retry's result (the trace has exactly the two endpoints, in order,
and the result component equals the result of dispatching the stable
fallback directly); any non-success status other than 404 surfaces the
remote error immediately with a one-entry trace (no retry). -/
theorem claim_C3_fallback_retry (fetchF : String → String → FetchResponse)
    (parseF : String → Option Json) (model prompt apiKey : String) :
    (rewriteModel model ≠ STABLE_FALLBACK_MODEL →
      (fetchF (endpointURL (rewriteModel model) apiKey) prompt).status = 404 →
      ∃ r, queryGemini fetchF parseF STABLE_FALLBACK_MODEL prompt apiKey =
            some (r, [endpointURL STABLE_FALLBACK_MODEL apiKey]) ∧
          queryGemini fetchF parseF model prompt apiKey =
            some (r, [endpointURL (rewriteModel model) apiKey,
                      endpointURL STABLE_FALLBACK_MODEL apiKey])) ∧
    ((fetchF (endpointURL (rewriteModel model) apiKey) prompt).ok = false →
      (fetchF (endpointURL (rewriteModel model) apiKey) prompt).status ≠ 404 →
      queryGemini fetchF parseF model prompt apiKey =
        some (Except.error (JsError.remote
                (fetchF (endpointURL (rewriteModel model) apiKey) prompt).status
                (fetchF (endpointURL (rewriteModel model) apiKey) prompt).statusText
                (fetchF (endpointURL (rewriteModel model) apiKey) prompt).body),
              [endpointURL (rewriteModel model) apiKey])) := by
  constructor
  · intro hne h404
    exact ⟨attemptOnce fetchF parseF STABLE_FALLBACK_MODEL prompt apiKey,
      stable_attempt fetchF parseF 1 prompt apiKey,
      retry_on_404 fetchF parseF model prompt apiKey hne h404⟩
  · exact error_no_retry fetchF parseF model prompt apiKey

/-- Witness for C3: with a transport that answers 404 everywhere, the
dispatch on "gemini-pro" performs exactly the two attempts and returns
what the direct stable-fallback dispatch returns. -/
theorem claim_C3_fallback_retry_witness :
    ∃ r, queryGemini fetch404 parseFail STABLE_FALLBACK_MODEL "hi" "k" =
          some (r, [endpointURL STABLE_FALLBACK_MODEL "k"]) ∧
        queryGemini fetch404 parseFail "gemini-pro" "hi" "k" =
          some (r, [endpointURL (rewriteModel "gemini-pro") "k",
                    endpointURL STABLE_FALLBACK_MODEL "k"]) :=
  (claim_C3_fallback_retry fetch404 parseFail "gemini-pro" "hi" "k").1
    (by decide) (by decide)

/-- Claim C4: the dispatcher terminates on every input and every
transport behaviour — `queryGeminiFuel` returns `none` exactly when its
self-recursion would exceed the supplied fuel, and at fuel 2 (the entry
point `queryGemini`) the result is always `some`, i.e. the recursion
depth is at most one — with a trace of at most two HTTP attempts; and a
dispatch that receives 404 on the stable fallback model itself surfaces
the remote error with a one-attempt trace (no further retry). -/
theorem claim_C4_bounded_attempts (fetchF : String → String → FetchResponse)
    (parseF : String → Option Json) (model prompt apiKey : String) :
    (∃ r tr, queryGemini fetchF parseF model prompt apiKey = some (r, tr) ∧
      tr.length ≤ 2) ∧
    ((fetchF (endpointURL STABLE_FALLBACK_MODEL apiKey) prompt).status = 404 →
      queryGemini fetchF parseF STABLE_FALLBACK_MODEL prompt apiKey =
        some (Except.error (JsError.remote 404
                (fetchF (endpointURL STABLE_FALLBACK_MODEL apiKey) prompt).statusText
                (fetchF (endpointURL STABLE_FALLBACK_MODEL apiKey) prompt).body),
              [endpointURL STABLE_FALLBACK_MODEL apiKey])) := by
  constructor
  · obtain ⟨r, rest, h, hlen⟩ := queryGemini_shape fetchF parseF model prompt apiKey
    refine ⟨r, endpointURL (rewriteModel model) apiKey :: rest, h, ?_⟩
    simp only [List.length_cons]
    omega
  · intro h404
    have hok : (fetchF (endpointURL STABLE_FALLBACK_MODEL apiKey) prompt).ok = false := by
      simp only [FetchResponse.ok, h404]
      decide
    have h1 : queryGemini fetchF parseF STABLE_FALLBACK_MODEL prompt apiKey =
        some (attemptOnce fetchF parseF STABLE_FALLBACK_MODEL prompt apiKey,
              [endpointURL STABLE_FALLBACK_MODEL apiKey]) :=
      stable_attempt fetchF parseF 1 prompt apiKey
    rw [h1, attemptOnce_error fetchF parseF STABLE_FALLBACK_MODEL prompt apiKey hok, h404]

/-- Witness for C4: under an all-404 transport the dispatch on a
non-fallback name makes two attempts, and the dispatch on the fallback
name itself fails with the remote error after one attempt. -/
theorem claim_C4_bounded_attempts_witness :
    (∃ r tr, queryGemini fetch404 parseFail "gemini-2.0-flash" "hi" "k" = some (r, tr) ∧
      tr.length ≤ 2) ∧
    queryGemini fetch404 parseFail STABLE_FALLBACK_MODEL "hi" "k" =
      some (Except.error (JsError.remote 404
              (fetch404 (endpointURL STABLE_FALLBACK_MODEL "k") "hi").statusText
              (fetch404 (endpointURL STABLE_FALLBACK_MODEL "k") "hi").body),
            [endpointURL STABLE_FALLBACK_MODEL "k"]) :=
  ⟨(claim_C4_bounded_attempts fetch404 parseFail "gemini-2.0-flash" "hi" "k").1,
   (claim_C4_bounded_attempts fetch404 parseFail STABLE_FALLBACK_MODEL "hi" "k").2
     (by decide)⟩

/-- Claim C5 (code bug): on a success status with a body that does not
parse, the spec says a ParseError carrying a prefix of the body is
thrown.  The catch block (src/ui.js line 241) reads
`throw new new Error(...)`: the Error carrying
`responseText.substring(0, 100)` is constructed and then discarded,
because applying `new` to that Error instance raises
`TypeError: ... is not a constructor` — so the exception that actually
escapes the dispatch is a TypeError carrying no part of the body, as this
evaluation of the embedded dispatcher shows. -/
theorem claim_C5_parse_slip :
    queryGemini fetchStub parseFail STABLE_FALLBACK_MODEL "hi" "k" =
      some (Except.error JsError.notAConstructorTypeError,
            [endpointURL STABLE_FALLBACK_MODEL "k"]) := rfl

/-- Claim C6: on a success status with a well-formed body, a missing
link anywhere on the fixed extraction path yields the placeholder string
as a *successful* result (no error), and a present path with a non-empty
text field yields that text. -/
theorem claim_C6_extraction (fetchF : String → String → FetchResponse)
    (parseF : String → Option Json) (model prompt apiKey : String) (data : Json)
    (hok : (fetchF (endpointURL (rewriteModel model) apiKey) prompt).ok = true)
    (hparse : parseF (fetchF (endpointURL (rewriteModel model) apiKey) prompt).body =
      some data) :
    (extractText data = none →
      queryGemini fetchF parseF model prompt apiKey =
        some (Except.ok (Json.str placeholderText),
              [endpointURL (rewriteModel model) apiKey])) ∧
    (∀ s, extractText data = some (Json.str s) → s ≠ "" →
      queryGemini fetchF parseF model prompt apiKey =
        some (Except.ok (Json.str s),
              [endpointURL (rewriteModel model) apiKey])) := by
  have hq := success_extract fetchF parseF model prompt apiKey data hok hparse
  constructor
  · intro hnone
    rw [hnone] at hq
    exact hq
  · intro s hsome hne
    rw [hsome] at hq
    have ht : jsTruthy (Json.str s) = true := by
      simp only [jsTruthy]
      exact bne_iff_ne.mpr hne
    simp only [ht, if_true, eq_self_iff_true, ite_true] at hq
    exact hq

/-- Witness for C6: the empty object (path missing) yields the
placeholder; a document with the full path and text "hi there" yields
that text. -/
theorem claim_C6_extraction_witness :
    queryGemini fetchOk parseEmptyObj STABLE_FALLBACK_MODEL "hi" "k" =
      some (Except.ok (Json.str placeholderText),
            [endpointURL (rewriteModel STABLE_FALLBACK_MODEL) "k"]) ∧
    queryGemini fetchOk parseFullDoc STABLE_FALLBACK_MODEL "hi" "k" =
      some (Except.ok (Json.str "hi there"),
            [endpointURL (rewriteModel STABLE_FALLBACK_MODEL) "k"]) :=
  ⟨(claim_C6_extraction fetchOk parseEmptyObj STABLE_FALLBACK_MODEL "hi" "k"
      (Json.obj []) (by decide) rfl).1 rfl,
   (claim_C6_extraction fetchOk parseFullDoc STABLE_FALLBACK_MODEL "hi" "k"
      docWithText (by decide) rfl).2 "hi there" rfl (by decide)⟩

/-- Claim C7 counterexample: the identifier "toString" is not a key of
the merged persona mapping, yet prompt construction does not use the
default persona's instruction text — the property read resolves to the
inherited truthy `Object.prototype.toString` function, which bypasses
the `||` fallback, and the prompt renders that function instead. -/
theorem claim_C7_counterexample :
    jsIndex (loadPersonalities []) "toString" = none ∧
    buildSystemPrompt "toString" (loadPersonalities []) =
      "function toString() \x7b [native code] \x7d" ++ additionalRules ∧
    buildSystemPrompt "toString" (loadPersonalities []) ≠
      buildSystemPrompt "default" (loadPersonalities []) :=
  ⟨by decide, rfl, by decide⟩

/-- Claim C7 as amended: the "default" identifier is always present (as
an own key) in the merged persona mapping, and prompt construction for
any identifier that is neither an own key of the merged mapping nor the
name of an inherited `Object.prototype` member produces the same prompt
as the "default" identifier (i.e. it uses the default persona's
instruction text). -/
theorem claim_C7_default_fallback (extra : List (String × String)) (style : String) :
    (jsIndex (loadPersonalities extra) "default").isSome = true ∧
    (jsIndex (loadPersonalities extra) style = none →
      (style == "__proto__") = false →
      jsIndex OBJECT_PROTOTYPE_METHODS style = none →
      buildSystemPrompt style (loadPersonalities extra) =
        buildSystemPrompt "default" (loadPersonalities extra)) := by
  refine ⟨default_present extra, fun hmiss hnp hnm => ?_⟩
  obtain ⟨v, hv⟩ := Option.isSome_iff_exists.mp (default_present extra)
  simp [buildSystemPrompt, jsRead, hmiss, hnp, hnm, hv, jsValOr, jsValTruthy, ite_self]

/-- Witness for C7: with no user override file, the unknown identifier
"gandalf" (not an own key, not an inherited member) falls back to the
default persona prompt. -/
theorem claim_C7_default_fallback_witness :
    (jsIndex (loadPersonalities []) "default").isSome = true ∧
    buildSystemPrompt "gandalf" (loadPersonalities []) =
      buildSystemPrompt "default" (loadPersonalities []) :=
  ⟨(claim_C7_default_fallback [] "gandalf").1,
   (claim_C7_default_fallback [] "gandalf").2 (by decide) (by decide) (by decide)⟩

/-- Claim C8: after the clear command at any point in any sequence of
prior turns, the Conversation Context equals the context at session
start (the constructed persona system prompt), and the clear step itself
produces the `cleared` effect — not a `dispatched` effect, so no network
call is made by the command. -/
theorem claim_C8_clear_resets (style : String) (long : Bool)
    (ps : List (String × String)) (prior : List String) :
    (chatRun style long ps (buildSystemPrompt style ps) (prior ++ [":clear"])).1 =
      buildSystemPrompt style ps ∧
    ∃ es, (chatRun style long ps (buildSystemPrompt style ps) (prior ++ [":clear"])).2 =
      es ++ [ChatEffect.cleared] := by
  rw [chatRun_clear_append]
  exact ⟨rfl, _, rfl⟩

/-- Claim C10: a requested name equal to the stable fallback ignoring
case but differing in case is not rewritten (the rewrite guard compares
lower-cased names), yet a 404 on it does trigger the single retry
against the stable fallback (the retry guard compares the names
case-sensitively). -/
theorem claim_C10_case_mismatch (fetchF : String → String → FetchResponse)
    (parseF : String → Option Json) (model prompt apiKey : String)
    (hlow : strToLower model = STABLE_FALLBACK_MODEL)
    (hcase : model ≠ STABLE_FALLBACK_MODEL) :
    rewriteModel model = model ∧
    ((fetchF (endpointURL model apiKey) prompt).status = 404 →
      ∃ r, queryGemini fetchF parseF model prompt apiKey =
          some (r, [endpointURL model apiKey, endpointURL STABLE_FALLBACK_MODEL apiKey]) ∧
        queryGemini fetchF parseF STABLE_FALLBACK_MODEL prompt apiKey =
          some (r, [endpointURL STABLE_FALLBACK_MODEL apiKey])) := by
  have hrw : rewriteModel model = model := rewriteModel_lower_stable model hlow
  refine ⟨hrw, fun h404 => ?_⟩
  have hne : rewriteModel model ≠ STABLE_FALLBACK_MODEL := by
    rw [hrw]
    exact hcase
  have h404' : (fetchF (endpointURL (rewriteModel model) apiKey) prompt).status = 404 := by
    rw [hrw]
    exact h404
  have hretry := retry_on_404 fetchF parseF model prompt apiKey hne h404'
  rw [hrw] at hretry
  exact ⟨attemptOnce fetchF parseF STABLE_FALLBACK_MODEL prompt apiKey, hretry,
    stable_attempt fetchF parseF 1 prompt apiKey⟩

/-- Witness for C10 at the name "Gemini-2.5-Flash": no rewrite, but a
404 still triggers the retry against "gemini-2.5-flash". -/
theorem claim_C10_case_mismatch_witness :
    rewriteModel "Gemini-2.5-Flash" = "Gemini-2.5-Flash" ∧
    ∃ r, queryGemini fetch404 parseFail "Gemini-2.5-Flash" "hi" "k" =
        some (r, [endpointURL "Gemini-2.5-Flash" "k",
                  endpointURL STABLE_FALLBACK_MODEL "k"]) ∧
      queryGemini fetch404 parseFail STABLE_FALLBACK_MODEL "hi" "k" =
        some (r, [endpointURL STABLE_FALLBACK_MODEL "k"]) := by
  have h := claim_C10_case_mismatch fetch404 parseFail "Gemini-2.5-Flash" "hi" "k"
    (by decide) (by decide)
  exact ⟨h.1, h.2 (by decide)⟩

/-- The full-screen UI's `saveLog` (src/ui.js lines 47-52) as a pure
file-system transformation: each invocation performs exactly one write,
of the full rendered transcript, and a second invocation with the same
message list writes byte-identical content while leaving the first file
untouched. -/
theorem saveLogModel_twice (messages : List ChatMsg) (t1 t2 : Nat)
    (files : List (String × String)) :
    saveLogModel messages t2 (saveLogModel messages t1 files) =
      (logFileName t2, renderTranscript messages) ::
      (logFileName t1, renderTranscript messages) :: files := rfl

end TermiGPT
